import Mathlib

/-!
Verification of the token-management module `auth_handler.py` of the
sig-data repository.

The module is embedded shallowly:

* JSON values (the parsed token file, HTTP response bodies, and the
  dictionaries the functions build) are the inductive type `JsonVal`;
  a Python dict is an association list `Dict` with unique keys,
  looked up by `getKey`.  JSON numbers are modelled as integers: every
  numeric field the module manipulates (`retrieved_at`, `expires_in`,
  timestamps) is integral in practice, and `time.time()` is modelled
  as integer seconds `now`.
* The outside world (environment variables, the token file on disk,
  the two possible HTTP POSTs and the possibility of a failing file
  write) is a record `Env`; each function takes the part of `Env` it
  reads.  A network interaction has three possible outcomes
  (`NetOutcome`): the request raises, the body is not JSON, or a
  status code plus parsed JSON body arrive.
* Python exceptions that the module's own `try`/`except` blocks catch
  are resolved inside the embedded functions (they produce `none`,
  exactly as the handlers at auth_handler.py lines 66-72, 118-124 and
  135-136 do).  The one place the module evaluates arithmetic on
  unchecked data outside any `try` block - the expiry check at line
  163 - is embedded with explicit Python dynamic-typing semantics
  (`pyAdd`, `pySub`, `pyGt`), so an uncaught `TypeError` surfaces as
  an `Except.error` in the result of `get_active_sigen_access_token`.
* Effects are made observable: `RunResult` records, besides the
  returned value, whether `refresh_sigen_token` and
  `get_sigen_bearer_token` were invoked, how many HTTP requests were
  issued, and which records were written to the token file.
-/

/-- A parsed JSON value (also used for the Python values the module
builds from JSON).  Numbers are modelled as integers. -/
inductive JsonVal where
  | jnull : JsonVal
  | jbool : Bool → JsonVal
  | jnum : Int → JsonVal
  | jstr : String → JsonVal
  | jobj : List (String × JsonVal) → JsonVal
  | jarr : List JsonVal → JsonVal

/-- A Python dict holding JSON data: an association list with the
first binding of a key the authoritative one. -/
abbrev Dict := List (String × JsonVal)

/-- `d.get(key)` / `key in d` on a Python dict. -/
def getKey : Dict → String → Option JsonVal
  | [], _ => none
  | (k, v) :: rest, key => if k = key then some v else getKey rest key

/-- Python truthiness of a JSON-derived value: `None`, `False`, `0`,
`""` and empty containers are falsy, everything else truthy. -/
def truthy : JsonVal → Bool
  | .jnull => false
  | .jbool b => b
  | .jnum n => n != 0
  | .jstr s => s != ""
  | .jobj fields => !fields.isEmpty
  | .jarr elems => !elems.isEmpty

/-- The one kind of exception that can escape the module's boundary:
a `TypeError` from applying arithmetic to a non-numeric value. -/
inductive PyError where
  | typeError : PyError
deriving DecidableEq

/-- Python `+` restricted to the value shapes that can reach the
expiry arithmetic: int/bool addition (a Python `bool` is an `int`),
string concatenation; every other combination raises `TypeError`. -/
def pyAdd : JsonVal → JsonVal → Except PyError JsonVal
  | .jnum a, .jnum b => .ok (.jnum (a + b))
  | .jnum a, .jbool b => .ok (.jnum (a + (if b then 1 else 0)))
  | .jbool a, .jnum b => .ok (.jnum ((if a then 1 else 0) + b))
  | .jbool a, .jbool b => .ok (.jnum ((if a then 1 else 0) + (if b then 1 else 0)))
  | .jstr a, .jstr b => .ok (.jstr (a ++ b))
  | _, _ => .error .typeError

/-- Python `-` on the same value shapes: defined for numbers and
bools only, `TypeError` otherwise (in particular `str - int`). -/
def pySub : JsonVal → JsonVal → Except PyError JsonVal
  | .jnum a, .jnum b => .ok (.jnum (a - b))
  | .jnum a, .jbool b => .ok (.jnum (a - (if b then 1 else 0)))
  | .jbool a, .jnum b => .ok (.jnum ((if a then 1 else 0) - b))
  | .jbool a, .jbool b => .ok (.jnum ((if a then 1 else 0) - (if b then 1 else 0)))
  | _, _ => .error .typeError

/-- Python `>` between the values that can reach the expiry
comparison: numeric comparison for numbers and bools, lexicographic
for two strings, `TypeError` for mixed shapes (`str > int` raises). -/
def pyGt : JsonVal → JsonVal → Except PyError Bool
  | .jnum a, .jnum b => .ok (decide (b < a))
  | .jnum a, .jbool b => .ok (decide ((if b then (1 : Int) else 0) < a))
  | .jbool a, .jnum b => .ok (decide (b < (if a then (1 : Int) else 0)))
  | .jbool a, .jbool b => .ok (decide ((if b then (1 : Int) else 0) < (if a then (1 : Int) else 0)))
  | .jstr a, .jstr b => .ok (decide (b < a))
  | _, _ => .error .typeError

/-- Outcome of an HTTP POST to the token endpoint, from the caller's
point of view: the request itself raised
(`requests.exceptions.RequestException`), the response body failed to
parse as JSON (`json.JSONDecodeError` from `response.json()`), or a
status code together with a parsed JSON body. -/
inductive NetOutcome where
  | requestError : NetOutcome
  | bodyNotJson : Nat → NetOutcome
  | response : Nat → JsonVal → NetOutcome

/-- The world `auth_handler.py` interacts with during one invocation:
configuration from the environment, the current token-file contents
(`none` when the file is absent, unreadable, not valid JSON or not an
object), the clock, what each of the two possible POSTs would return,
and whether writing the token file raises `IOError`. -/
structure Env where
  username : Option String
  password : Option String
  storedFile : Option Dict
  now : Int
  refreshNet : NetOutcome
  authNet : NetOutcome
  saveFails : Bool

/-- `not SIGEN_USERNAME` is false exactly when the variable is set
and non-empty. -/
def usernameTruthy (env : Env) : Bool :=
  match env.username with
  | some s => s != ""
  | none => false

/-- `not OBSERVED_TRANSFORMED_PASSWORD_STRING_FROM_BROWSER`
analogously. -/
def passwordTruthy (env : Env) : Bool :=
  match env.password with
  | some s => s != ""
  | none => false

/-- The module-level constants of `auth_handler.py` (lines 16-19) as
Python name bindings.  Name lookup of an unbound global raises
`NameError`, modelled by `none`. -/
def moduleGlobals : String → Option String :=
  fun s =>
    if s = "TOKEN_URL" then some "https://api-eu.sigencloud.com/auth/oauth/token"
    else if s = "CLIENT_AUTH_BASE_64" then some "c2lnZW46c2lnZW4="
    else if s = "USER_AGENT" then some "PythonSigenClient/1.0"
    else if s = "TOKEN_FILE" then some "sigen_token.json"
    else none

/-- `response_json.get("code") == 0`: in Python `0 == 0` and
`False == 0` hold; a missing key gives `None`, which is not `0`. -/
def codeIsZero : Option JsonVal → Bool
  | some (.jnum 0) => true
  | some (.jbool false) => true
  | _ => false

/-- Handling of a token-endpoint response, shared verbatim between
`get_sigen_bearer_token` (lines 49-65) and `refresh_sigen_token`
(lines 101-117): on status 200 with application code 0 and a `data`
object containing `access_token`, build the new token record with
`retrieved_at` stamped from the clock; in every other case - request
error, non-JSON body, non-object body (the `.get` raises
`AttributeError`, caught), wrong status, non-zero code, missing or
non-object `data` (membership/indexing on it raises, caught) - the
function falls through to `return None`. -/
def tokenNetFlow (net : NetOutcome) (now : Int) : Option Dict :=
  match net with
  | .requestError => none
  | .bodyNotJson _ => none
  | .response status body =>
    match body with
    | .jobj bodyFields =>
      if status == 200 && codeIsZero (getKey bodyFields "code") then
        match getKey bodyFields "data" with
        | some (.jobj tokenData) =>
          if truthy (.jobj tokenData) && (getKey tokenData "access_token").isSome then
            some [("access_token", (getKey tokenData "access_token").getD .jnull),
                  ("refresh_token", (getKey tokenData "refresh_token").getD .jnull),
                  ("expires_in", (getKey tokenData "expires_in").getD .jnull),
                  ("retrieved_at", .jnum now)]
          else none
        | _ => none
      else none
    | _ => none

/-- `refresh_sigen_token(existing_refresh_token)` (lines 74-124).
Returns the token record or `None`, paired with whether the HTTP
request was actually issued.  A falsy refresh token or an unset
`SIGEN_USERNAME` short-circuits before the `try` block; a truthy
non-string token raises `TypeError` in `urllib.parse.quote_plus`
before the POST, caught by the handler at line 122. -/
def refresh_sigen_token (env : Env) (existingRefreshToken : JsonVal) :
    Option Dict × Bool :=
  if !truthy existingRefreshToken then (none, false)
  else if !usernameTruthy env then (none, false)
  else
    match existingRefreshToken with
    | .jstr _ => (tokenNetFlow env.refreshNet env.now, true)
    | _ => (none, false)

/-- `get_sigen_bearer_token()` (lines 23-72).  After the
configuration guard, building the request headers at line 45 reads
the global name `CLIENT_AUTH_BASE64`; the module only binds
`CLIENT_AUTH_BASE_64` (line 17), so Python raises `NameError` before
`requests.post` runs, and the `except Exception` handler at line 70
turns it into `None`.  The response-handling branch is therefore
unreachable; it is kept for fidelity to lines 48-65. -/
def get_sigen_bearer_token (env : Env) : Option Dict × Bool :=
  if !usernameTruthy env || !passwordTruthy env then (none, false)
  else
    match moduleGlobals "CLIENT_AUTH_BASE64" with
    | none => (none, false)
    | some _ => (tokenNetFlow env.authNet env.now, true)

/-- `load_token_from_file()` (lines 126-137): the parsed file is
returned only when `access_token`, `retrieved_at` and `expires_in`
are all present as keys; a missing, unreadable or invalid file gives
`None` (every exception is caught inside the function). -/
def load_token_from_file (file : Option Dict) : Option Dict :=
  match file with
  | some d =>
    if ((getKey d "access_token").isSome && (getKey d "retrieved_at").isSome)
        && (getKey d "expires_in").isSome then some d
    else none
  | none => none

/-- Python `x or 0`: a falsy value is replaced by `0`, a truthy one
kept unchanged. -/
def orZero (v : JsonVal) : JsonVal :=
  if truthy v then v else .jnum 0

/-- The expiry evaluation of lines 158-163:
`retrieved_at = token_info.get("retrieved_at", 0)`,
`expires_in = token_info.get("expires_in", 0) or 0`, then
`(retrieved_at + expires_in - 300) > time.time()`.  The arithmetic
runs outside any `try` block, so a shape error is an uncaught
`TypeError`. -/
def usabilityCheck (d : Dict) (now : Int) : Except PyError Bool :=
  match pyAdd ((getKey d "retrieved_at").getD (.jnum 0))
      (orZero ((getKey d "expires_in").getD (.jnum 0))) with
  | .error e => .error e
  | .ok s =>
    match pySub s (.jnum 300) with
    | .error e => .error e
    | .ok s300 => pyGt s300 (.jnum now)

/-- Observable outcome of one `get_active_sigen_access_token`
invocation: the value returned to the caller (a Python return of
`None` is `.ok .jnull`; an uncaught exception is `.error`), whether
each acquisition function was invoked, how many HTTP requests were
issued, the records successfully written to the token file, and
whether a write was attempted at all. -/
structure RunResult where
  result : Except PyError JsonVal
  refreshCalled : Bool
  authCalled : Bool
  netCalls : Nat
  fileWrites : List Dict
  saveAttempted : Bool

/-- Lines 185-190: if the token record in hand is truthy and has an
`access_token` key, `save_token_to_file` is called (an `IOError`
there is caught at line 145: the write is lost but nothing else
changes) and the access token is returned; otherwise `None` is
returned and nothing is written. -/
def finalize (env : Env) (tokenInfo : Option Dict)
    (refreshCalled authCalled : Bool) (netCalls : Nat) : RunResult :=
  match tokenInfo with
  | some ti =>
    if truthy (.jobj ti) && (getKey ti "access_token").isSome then
      ⟨.ok ((getKey ti "access_token").getD .jnull), refreshCalled, authCalled,
        netCalls, if env.saveFails then [] else [ti], true⟩
    else ⟨.ok .jnull, refreshCalled, authCalled, netCalls, [], false⟩
  | none => ⟨.ok .jnull, refreshCalled, authCalled, netCalls, [], false⟩

/-- `get_active_sigen_access_token()` (lines 148-190).  Load the
stored record; if it is usable return its access token at once (no
network, no write); otherwise try refresh when a truthy
`refresh_token` is stored, fall back to full authentication when
refresh was skipped or failed, and finish by persisting and
returning whatever record was obtained, or returning `None`. -/
def get_active_sigen_access_token (env : Env) : RunResult :=
  match load_token_from_file env.storedFile with
  | some tokenInfo =>
    match usabilityCheck tokenInfo env.now with
    | .error e => ⟨.error e, false, false, 0, [], false⟩
    | .ok true =>
      ⟨.ok ((getKey tokenInfo "access_token").getD .jnull), false, false, 0, [], false⟩
    | .ok false =>
      if truthy ((getKey tokenInfo "refresh_token").getD .jnull) then
        match refresh_sigen_token env ((getKey tokenInfo "refresh_token").getD .jnull) with
        | (some newTokenInfo, issued) =>
          finalize env (some newTokenInfo) true false issued.toNat
        | (none, issued) =>
          finalize env (get_sigen_bearer_token env).1 true true
            (issued.toNat + (get_sigen_bearer_token env).2.toNat)
      else
        finalize env (get_sigen_bearer_token env).1 false true
          (get_sigen_bearer_token env).2.toNat
  | none =>
    finalize env (get_sigen_bearer_token env).1 false true
      (get_sigen_bearer_token env).2.toNat

/-- Two back-to-back invocations: the second sees the token file as
the first left it (the first invocation's successful write, if any,
otherwise the original contents). -/
def runTwice (env : Env) : RunResult × RunResult :=
  (get_active_sigen_access_token env,
    get_active_sigen_access_token
      ⟨env.username, env.password,
        match (get_active_sigen_access_token env).fileWrites with
        | [] => env.storedFile
        | w :: _ => some w,
        env.now, env.refreshNet, env.authNet, env.saveFails⟩)

/-- A value Python arithmetic accepts in the expiry check: an `int`
or a `bool` (Python `bool` is a subtype of `int`). -/
def numLike : JsonVal → Bool
  | .jnum _ => true
  | .jbool _ => true
  | _ => false

/-- A stored `retrieved_at` the expiry arithmetic is defined on:
absent (defaulted to `0` by the `.get`) or numeric. -/
def retrievedOk : Option JsonVal → Bool
  | none => true
  | some v => numLike v

/-- A stored `expires_in` the expiry arithmetic is defined on:
absent, numeric, or falsy (replaced by `0` by the `or 0`). -/
def expiresOk : Option JsonVal → Bool
  | none => true
  | some v => numLike v || !truthy v

/-- A record of the shape `save_token_to_file` persists: fresh token,
3600-second lifetime, fetched at time 1000. -/
def freshRecord : Dict :=
  [("access_token", .jstr "tok1"), ("retrieved_at", .jnum 1000), ("expires_in", .jnum 3600)]

/-- World for the fast-path witness: the stored record above, clock
at 1000, both endpoints unreachable. -/
def envFresh : Env :=
  ⟨some "user", some "pw", some freshRecord, 1000, .requestError, .requestError, false⟩

/-- A stored record already past the safety margin, holding a refresh
token. -/
def staleRecord : Dict :=
  [("access_token", .jstr "old"), ("retrieved_at", .jnum (-4000)), ("expires_in", .jnum 3600),
   ("refresh_token", .jstr "rt")]

/-- World where the stale record is stored and the refresh POST
raises a request error. -/
def envStaleRefreshDown : Env :=
  ⟨some "user", some "pw", some staleRecord, 1000, .requestError, .requestError, false⟩

/-- The `data` object of a successful token-endpoint response. -/
def goodTokenData : Dict :=
  [("access_token", .jstr "abc123"), ("refresh_token", .jstr "r2"), ("expires_in", .jnum 3600)]

/-- A successful token-endpoint response body: application code 0
with the token data above. -/
def goodBody : Dict :=
  [("code", .jnum 0), ("msg", .jstr "success"), ("data", .jobj goodTokenData)]

/-- World where the stale record is stored and the refresh POST
succeeds with status 200 and `goodBody`. -/
def envStaleRefreshOk : Env :=
  ⟨some "user", some "pw", some staleRecord, 1000, .response 200 (.jobj goodBody),
   .requestError, false⟩

/-- Same world, but writing the token file raises `IOError`. -/
def envStaleRefreshOkSaveFails : Env :=
  ⟨some "user", some "pw", some staleRecord, 1000, .response 200 (.jobj goodBody),
   .requestError, true⟩

/-- The record the successful refresh in `envStaleRefreshOk` builds. -/
def refreshedRecord : Dict :=
  [("access_token", .jstr "abc123"), ("refresh_token", .jstr "r2"), ("expires_in", .jnum 3600),
   ("retrieved_at", .jnum 1000)]

/-- A stored record whose `expires_in` is a truthy non-numeric value:
structurally valid for `load_token_from_file`, but the expiry
arithmetic on it raises `TypeError`. -/
def badExpiresRecord : Dict :=
  [("access_token", .jstr "tok"), ("retrieved_at", .jnum 0), ("expires_in", .jstr "not-a-number")]

/-- World with `badExpiresRecord` stored. -/
def envBadExpires : Env :=
  ⟨some "user", some "pw", some badExpiresRecord, 1000, .requestError, .requestError, false⟩

/-- A second stored record with a truthy non-numeric `expires_in`,
used to probe the coercion claim. -/
def badExpiresRecord2 : Dict :=
  [("access_token", .jstr "tok"), ("retrieved_at", .jnum 50), ("expires_in", .jstr "soon")]

/-- World with `badExpiresRecord2` stored and the clock at 10. -/
def envBadExpires2 : Env :=
  ⟨some "user", some "pw", some badExpiresRecord2, 10, .requestError, .requestError, false⟩

/-- An expired stored record with no `refresh_token` key. -/
def expiredNoRefreshRecord : Dict :=
  [("access_token", .jstr "old"), ("retrieved_at", .jnum 0), ("expires_in", .jnum 100)]

/-- World with the expired refreshless record stored; every network
interaction would fail. -/
def envExpiredNoRefresh : Env :=
  ⟨some "user", some "pw", some expiredNoRefreshRecord, 1000, .requestError, .requestError,
   false⟩

/-- An expired stored record whose `expires_in` is `null` (the issuer
omitted it, so `token_data.get('expires_in')` stored `None`). -/
def nullExpiresRecord : Dict :=
  [("access_token", .jstr "tok"), ("retrieved_at", .jnum 0), ("expires_in", .jnull)]

/-- World with the null-`expires_in` record stored. -/
def envNullExpires : Env :=
  ⟨some "user", some "pw", some nullExpiresRecord, 1000, .requestError, .requestError, false⟩

/-- World with no `SIGEN_USERNAME` configured. -/
def envNoUsername : Env :=
  ⟨none, some "pw", none, 0, .requestError, .requestError, false⟩

theorem moduleGlobals_missing_base64 : moduleGlobals "CLIENT_AUTH_BASE64" = none := rfl

theorem auth_always_none (env : Env) : get_sigen_bearer_token env = (none, false) := by
  unfold get_sigen_bearer_token
  rw [moduleGlobals_missing_base64]
  split <;> rfl

theorem finalize_refreshCalled (env : Env) (ti : Option Dict) (rc ac : Bool) (nc : Nat) :
    (finalize env ti rc ac nc).refreshCalled = rc := by
  cases ti with
  | none => rfl
  | some t =>
    simp only [finalize]
    split <;> rfl

theorem finalize_authCalled (env : Env) (ti : Option Dict) (rc ac : Bool) (nc : Nat) :
    (finalize env ti rc ac nc).authCalled = ac := by
  cases ti with
  | none => rfl
  | some t =>
    simp only [finalize]
    split <;> rfl

theorem finalize_ok (env : Env) (ti : Option Dict) (rc ac : Bool) (nc : Nat) :
    ∃ v, (finalize env ti rc ac nc).result = .ok v := by
  cases ti with
  | none => exact ⟨.jnull, rfl⟩
  | some t =>
    simp only [finalize]
    split
    · exact ⟨_, rfl⟩
    · exact ⟨.jnull, rfl⟩

theorem getKey_isEmpty_false (l : Dict) (k : String) (v : JsonVal)
    (h : getKey l k = some v) : l.isEmpty = false := by
  cases l with
  | nil => exact absurd h (by simp [getKey])
  | cons a rest => rfl

theorem load_some_eq (file : Option Dict) (d : Dict)
    (h : load_token_from_file file = some d) : file = some d := by
  cases file with
  | none => simp [load_token_from_file] at h
  | some d0 =>
    simp only [load_token_from_file] at h
    split at h
    · injection h with h
      rw [h]
    · simp at h

theorem usability_numeric (d : Dict) (now r e : Int)
    (hr : getKey d "retrieved_at" = some (.jnum r))
    (he : getKey d "expires_in" = some (.jnum e)) :
    usabilityCheck d now = .ok (decide (now < r + e - 300)) := by
  unfold usabilityCheck
  rw [hr, he]
  by_cases h : e = 0
  · subst h
    simp [orZero, truthy, pyAdd, pySub, pyGt, Option.getD]
  · simp [orZero, truthy, h, pyAdd, pySub, pyGt, Option.getD]

theorem numLike_pyAdd (a b : JsonVal) (ha : numLike a = true) (hb : numLike b = true) :
    ∃ n : Int, pyAdd a b = .ok (.jnum n) := by
  cases a with
  | jnum x =>
    cases b with
    | jnum y => exact ⟨x + y, rfl⟩
    | jbool y => exact ⟨x + (if y then 1 else 0), rfl⟩
    | jnull => simp [numLike] at hb
    | jstr s => simp [numLike] at hb
    | jobj l => simp [numLike] at hb
    | jarr l => simp [numLike] at hb
  | jbool x =>
    cases b with
    | jnum y => exact ⟨(if x then 1 else 0) + y, rfl⟩
    | jbool y => exact ⟨(if x then 1 else 0) + (if y then 1 else 0), rfl⟩
    | jnull => simp [numLike] at hb
    | jstr s => simp [numLike] at hb
    | jobj l => simp [numLike] at hb
    | jarr l => simp [numLike] at hb
  | jnull => simp [numLike] at ha
  | jstr s => simp [numLike] at ha
  | jobj l => simp [numLike] at ha
  | jarr l => simp [numLike] at ha

theorem usability_total (d : Dict) (now : Int)
    (h1 : retrievedOk (getKey d "retrieved_at") = true)
    (h2 : expiresOk (getKey d "expires_in") = true) :
    ∃ b, usabilityCheck d now = .ok b := by
  have hA : numLike ((getKey d "retrieved_at").getD (.jnum 0)) = true := by
    cases h : getKey d "retrieved_at" with
    | none => rfl
    | some v => rw [h] at h1; simpa [retrievedOk] using h1
  have hE : numLike (orZero ((getKey d "expires_in").getD (.jnum 0))) = true := by
    cases h : getKey d "expires_in" with
    | none => rfl
    | some v =>
      rw [h] at h2
      simp only [expiresOk, Bool.or_eq_true] at h2
      simp only [Option.getD]
      unfold orZero
      cases htr : truthy v with
      | true =>
        simp only [if_pos rfl]
        rcases h2 with h2 | h2
        · exact h2
        · rw [htr] at h2; simp at h2
      | false => simp [htr, numLike]
  unfold usabilityCheck
  obtain ⟨n, hadd⟩ := numLike_pyAdd _ _ hA hE
  rw [hadd]
  exact ⟨decide (now < n - 300), rfl⟩

theorem tokenNetFlow_hasToken (net : NetOutcome) (now : Int) (nti : Dict)
    (h : tokenNetFlow net now = some nti) :
    ∃ av, getKey nti "access_token" = some av := by
  cases net with
  | requestError => simp [tokenNetFlow] at h
  | bodyNotJson s => simp [tokenNetFlow] at h
  | response status body =>
    cases body with
    | jobj bf =>
      simp only [tokenNetFlow] at h
      split at h
      · split at h
        · split at h
          · injection h with h
            subst h
            exact ⟨_, rfl⟩
          · simp at h
        · simp at h
      · simp at h
    | jnull => simp [tokenNetFlow] at h
    | jbool b => simp [tokenNetFlow] at h
    | jnum n => simp [tokenNetFlow] at h
    | jstr s => simp [tokenNetFlow] at h
    | jarr l => simp [tokenNetFlow] at h

theorem refresh_some_hasToken (env : Env) (t : JsonVal) (nti : Dict)
    (h : (refresh_sigen_token env t).1 = some nti) :
    ∃ av, getKey nti "access_token" = some av := by
  unfold refresh_sigen_token at h
  split at h
  · exact absurd h (by simp)
  · split at h
    · exact absurd h (by simp)
    · split at h
      · exact tokenNetFlow_hasToken env.refreshNet env.now nti h
      · exact absurd h (by simp)

theorem refresh_success (env : Env) (s : String) (av : JsonVal) (bodyFields tokenData : Dict)
    (hs : s ≠ "") (huser : usernameTruthy env = true)
    (hnet : env.refreshNet = .response 200 (.jobj bodyFields))
    (hcode : getKey bodyFields "code" = some (.jnum 0))
    (hdata : getKey bodyFields "data" = some (.jobj tokenData))
    (hat : getKey tokenData "access_token" = some av) :
    refresh_sigen_token env (.jstr s) =
      (some [("access_token", av),
             ("refresh_token", (getKey tokenData "refresh_token").getD .jnull),
             ("expires_in", (getKey tokenData "expires_in").getD .jnull),
             ("retrieved_at", .jnum env.now)], true) := by
  have hne := getKey_isEmpty_false tokenData "access_token" av hat
  unfold refresh_sigen_token
  simp [truthy, hs, huser, tokenNetFlow, hnet, codeIsZero, hcode, hdata, hat, hne]

/-- Claim C1: for every stored CredentialSet with numeric
`retrieved_at` and `expires_in`, `get_active_sigen_access_token`
takes the fast path - returning the stored `access_token` with no
acquisition call, no network request and no file write - exactly when
`now < retrieved_at + expires_in - 300`, the 300-second safety
margin. -/
theorem claim_C1_usable_iff_margin (env : Env) (d : Dict) (av : JsonVal) (r e : Int)
    (hload : load_token_from_file env.storedFile = some d)
    (hav : getKey d "access_token" = some av)
    (hr : getKey d "retrieved_at" = some (.jnum r))
    (he : getKey d "expires_in" = some (.jnum e)) :
    get_active_sigen_access_token env = ⟨.ok av, false, false, 0, [], false⟩ ↔
      env.now < r + e - 300 := by
  unfold get_active_sigen_access_token
  rw [hload]
  dsimp only
  rw [usability_numeric d env.now r e hr he]
  by_cases hlt : env.now < r + e - 300
  · rw [decide_eq_true hlt]
    rw [hav]
    simp [hlt]
  · rw [decide_eq_false hlt]
    constructor
    · intro heq
      exfalso
      by_cases hrt : truthy ((getKey d "refresh_token").getD .jnull)
      · simp only [hrt] at heq
        rcases h2 : refresh_sigen_token env ((getKey d "refresh_token").getD .jnull)
          with ⟨res, issued⟩
        rw [h2] at heq
        cases res with
        | some nti =>
          have hfield := congrArg RunResult.refreshCalled heq
          simp [finalize_refreshCalled] at hfield
        | none =>
          have hfield := congrArg RunResult.refreshCalled heq
          simp [finalize_refreshCalled] at hfield
      · simp only [hrt] at heq
        have hfield := congrArg RunResult.authCalled heq
        simp [finalize_authCalled] at hfield
    · intro h
      exact absurd h hlt

theorem claim_C1_witness :
    get_active_sigen_access_token envFresh
        = ⟨.ok (.jstr "tok1"), false, false, 0, [], false⟩ ↔
      (1000 : Int) < 1000 + 3600 - 300 :=
  claim_C1_usable_iff_margin envFresh freshRecord (.jstr "tok1") 1000 3600 rfl rfl rfl rfl

/-- Claim C2: when a structurally valid stored credential exists but
is not usable, `refresh_sigen_token` is invoked exactly when the
stored `refresh_token` is truthy (for a stored string: non-empty),
and full authentication is invoked exactly when refresh was skipped
or returned no token set - in particular never when refresh
succeeded.  A refresh response with application code different from 0
makes `refresh_sigen_token` return `None`, which is exactly the
condition triggering the fallback. -/
theorem claim_C2_refresh_then_auth_fallback (env : Env) (d : Dict)
    (hload : load_token_from_file env.storedFile = some d)
    (hstale : usabilityCheck d env.now = .ok false) :
    (get_active_sigen_access_token env).refreshCalled
        = truthy ((getKey d "refresh_token").getD .jnull) ∧
      (get_active_sigen_access_token env).authCalled
        = (!truthy ((getKey d "refresh_token").getD .jnull)
            || (refresh_sigen_token env ((getKey d "refresh_token").getD .jnull)).1.isNone) := by
  unfold get_active_sigen_access_token
  rw [hload]
  dsimp only
  rw [hstale]
  by_cases hrt : truthy ((getKey d "refresh_token").getD .jnull)
  · simp only [hrt]
    rcases h2 : refresh_sigen_token env ((getKey d "refresh_token").getD .jnull)
      with ⟨res, issued⟩
    cases res with
    | some nti => simp [finalize_refreshCalled, finalize_authCalled]
    | none => simp [finalize_refreshCalled, finalize_authCalled]
  · simp only [Bool.not_eq_true] at hrt
    simp [hrt, finalize_refreshCalled, finalize_authCalled]

theorem claim_C2_witness :
    (get_active_sigen_access_token envStaleRefreshDown).refreshCalled
        = truthy ((getKey staleRecord "refresh_token").getD .jnull) ∧
      (get_active_sigen_access_token envStaleRefreshDown).authCalled
        = (!truthy ((getKey staleRecord "refresh_token").getD .jnull)
            || (refresh_sigen_token envStaleRefreshDown
                ((getKey staleRecord "refresh_token").getD .jnull)).1.isNone) :=
  claim_C2_refresh_then_auth_fallback envStaleRefreshDown staleRecord rfl rfl

/-- Claim C3: when refresh succeeds at time 1000 (status 200,
application code 0, data with `access_token` "abc123" and
`expires_in` 3600) behind a valid but stale stored credential, the
whole record `{access_token: "abc123", refresh_token: as returned or
null, expires_in: 3600, retrieved_at: 1000}` is written to storage as
one overwrite, and `get_active_sigen_access_token` returns "abc123".
(The full-authentication operation can never produce such a success -
see claim C4 - so the refresh path covers every realizable success.) -/
theorem claim_C3_success_persisted_and_returned (env : Env)
    (d bodyFields tokenData : Dict) (s : String)
    (hload : load_token_from_file env.storedFile = some d)
    (hstale : usabilityCheck d env.now = .ok false)
    (hrt : getKey d "refresh_token" = some (.jstr s))
    (hs : s ≠ "")
    (huser : usernameTruthy env = true)
    (hnet : env.refreshNet = .response 200 (.jobj bodyFields))
    (hcode : getKey bodyFields "code" = some (.jnum 0))
    (hdata : getKey bodyFields "data" = some (.jobj tokenData))
    (hat : getKey tokenData "access_token" = some (.jstr "abc123"))
    (hei : getKey tokenData "expires_in" = some (.jnum 3600))
    (hnow : env.now = 1000)
    (hsave : env.saveFails = false) :
    (get_active_sigen_access_token env).result = .ok (.jstr "abc123") ∧
      (get_active_sigen_access_token env).fileWrites =
        [[("access_token", .jstr "abc123"),
          ("refresh_token", (getKey tokenData "refresh_token").getD .jnull),
          ("expires_in", .jnum 3600),
          ("retrieved_at", .jnum 1000)]] := by
  have hrefresh := refresh_success env s (.jstr "abc123") bodyFields tokenData hs huser
    hnet hcode hdata hat
  rw [hei, hnow] at hrefresh
  unfold get_active_sigen_access_token
  rw [hload]
  dsimp only
  rw [hstale, hrt]
  simp only [Option.getD_some, truthy, bne_iff_ne, ne_eq, hs, not_false_eq_true]
  rw [hrefresh]
  simp [finalize, hsave, truthy, getKey]

theorem claim_C3_witness :
    (get_active_sigen_access_token envStaleRefreshOk).result = .ok (.jstr "abc123") ∧
      (get_active_sigen_access_token envStaleRefreshOk).fileWrites =
        [[("access_token", .jstr "abc123"),
          ("refresh_token", .jstr "r2"),
          ("expires_in", .jnum 3600),
          ("retrieved_at", .jnum 1000)]] :=
  claim_C3_success_persisted_and_returned envStaleRefreshOk staleRecord goodBody
    goodTokenData "rt" rfl rfl rfl (by decide) rfl rfl rfl rfl rfl rfl rfl rfl

/-- Claim C4: for every configuration and every issuer response, full
authentication returns `None` without issuing any HTTP request: the
header construction at line 45 references the unbound global
`CLIENT_AUTH_BASE64` (the module defines `CLIENT_AUTH_BASE_64`), so
the `NameError` raised there is converted to `None` by the catch-all
handler and the success branch is unreachable. -/
theorem claim_C4_full_auth_always_fails (env : Env) :
    get_sigen_bearer_token env = (none, false)
      ∧ moduleGlobals "CLIENT_AUTH_BASE64" = none
      ∧ moduleGlobals "CLIENT_AUTH_BASE_64" = some "c2lnZW46c2lnZW4=" :=
  ⟨auth_always_none env, rfl, rfl⟩

/-- Claim C5 fails as stated: for the stored record
`{access_token: "tok", retrieved_at: 0, expires_in: "not-a-number"}`
the expiry arithmetic at line 163 raises `TypeError` outside any
`try` block, so `get_active_sigen_access_token` raises past its own
boundary instead of returning a token or `None`. -/
theorem claim_C5_counterexample :
    (get_active_sigen_access_token envBadExpires).result = .error .typeError := rfl

/-- Claim C5 amended: for every stored record whose `retrieved_at` is
absent or numeric and whose `expires_in` is absent, numeric or falsy,
and for every endpoint response (request errors and malformed
non-JSON bodies included), `get_active_sigen_access_token` raises
nothing: the caller receives a returned value (a token or `None`),
every failure inside refresh or authentication having been caught
locally. -/
theorem claim_C5_amended_no_raise (env : Env)
    (h : ∀ d, env.storedFile = some d →
        retrievedOk (getKey d "retrieved_at") = true ∧
          expiresOk (getKey d "expires_in") = true) :
    ∃ v, (get_active_sigen_access_token env).result = .ok v := by
  unfold get_active_sigen_access_token
  cases hl : load_token_from_file env.storedFile with
  | none => exact ⟨.jnull, by simp [auth_always_none, finalize]⟩
  | some d =>
    obtain ⟨h1, h2⟩ := h d (load_some_eq env.storedFile d hl)
    obtain ⟨b, hb⟩ := usability_total d env.now h1 h2
    dsimp only
    rw [hb]
    cases b with
    | true => exact ⟨_, rfl⟩
    | false =>
      by_cases hrt : truthy ((getKey d "refresh_token").getD .jnull)
      · simp only [hrt]
        rcases h2r : refresh_sigen_token env ((getKey d "refresh_token").getD .jnull)
          with ⟨res, issued⟩
        cases res with
        | some nti =>
          obtain ⟨v, hv⟩ := finalize_ok env (some nti) true false issued.toNat
          exact ⟨v, by simpa using hv⟩
        | none =>
          obtain ⟨v, hv⟩ := finalize_ok env (get_sigen_bearer_token env).1 true true
            (issued.toNat + (get_sigen_bearer_token env).2.toNat)
          exact ⟨v, by simpa using hv⟩
      · simp only [Bool.not_eq_true] at hrt
        simp only [hrt, Bool.false_eq_true, if_false]
        exact finalize_ok env (get_sigen_bearer_token env).1 false true
          (get_sigen_bearer_token env).2.toNat

theorem claim_C5_witness :
    ∃ v, (get_active_sigen_access_token envStaleRefreshDown).result = .ok v :=
  claim_C5_amended_no_raise envStaleRefreshDown
    (by
      intro d hd
      have hd2 : staleRecord = d := Option.some.inj hd
      subst hd2
      exact ⟨rfl, rfl⟩)

/-- Claim C6: whenever refresh yields no token set (skipped for lack
of a truthy refresh token, or failed in any way) on a stale or
invalid stored credential, full authentication also fails (it always
does, claim C4), `get_active_sigen_access_token` returns `None`, and
the token file is untouched: no write is even attempted. -/
theorem claim_C6_all_fail_returns_failure_no_write (env : Env)
    (h : ∀ d, load_token_from_file env.storedFile = some d →
        usabilityCheck d env.now = .ok false ∧
          (refresh_sigen_token env ((getKey d "refresh_token").getD .jnull)).1 = none) :
    (get_active_sigen_access_token env).result = .ok .jnull ∧
      (get_active_sigen_access_token env).fileWrites = [] ∧
      (get_active_sigen_access_token env).saveAttempted = false := by
  unfold get_active_sigen_access_token
  cases hl : load_token_from_file env.storedFile with
  | none => simp [auth_always_none, finalize]
  | some d =>
    obtain ⟨hu, hrf⟩ := h d hl
    dsimp only
    rw [hu]
    by_cases hrt : truthy ((getKey d "refresh_token").getD .jnull)
    · simp only [hrt]
      rcases h2 : refresh_sigen_token env ((getKey d "refresh_token").getD .jnull)
        with ⟨res, issued⟩
      rw [h2] at hrf
      simp only at hrf
      subst hrf
      simp [auth_always_none, finalize]
    · simp only [Bool.not_eq_true] at hrt
      simp [hrt, auth_always_none, finalize]

theorem claim_C6_witness :
    (get_active_sigen_access_token envExpiredNoRefresh).result = .ok .jnull ∧
      (get_active_sigen_access_token envExpiredNoRefresh).fileWrites = [] ∧
      (get_active_sigen_access_token envExpiredNoRefresh).saveAttempted = false :=
  claim_C6_all_fail_returns_failure_no_write envExpiredNoRefresh
    (by
      intro d hd
      have hd2 : expiredNoRefreshRecord = d := Option.some.inj hd
      subst hd2
      exact ⟨rfl, rfl⟩)

/-- Claim C7 fails as stated: a stored record whose `expires_in` is
the truthy non-numeric value `"soon"` is not coerced to `0` - the
`or 0` only replaces falsy values - and the usability evaluation is
not total: it raises `TypeError`, which escapes
`get_active_sigen_access_token`. -/
theorem claim_C7_counterexample :
    usabilityCheck badExpiresRecord2 10 = .error .typeError ∧
      (get_active_sigen_access_token envBadExpires2).result = .error .typeError :=
  ⟨rfl, rfl⟩

/-- Claim C7 amended: for every stored record whose `expires_in` is
falsy (`null` when the issuer omitted it, `0`, an empty string, ...)
and whose `retrieved_at` is a numeric timestamp not in the future,
the `or 0` coercion makes `expires_in` count as `0`, the record is
immediately not usable, and a refresh or re-authentication attempt is
forced; a truthy non-numeric `expires_in` instead raises `TypeError`
(see the counterexample). -/
theorem claim_C7_amended_falsy_coerced (env : Env) (d : Dict) (r : Int) (ev : JsonVal)
    (hload : load_token_from_file env.storedFile = some d)
    (hr : getKey d "retrieved_at" = some (.jnum r))
    (he : getKey d "expires_in" = some ev)
    (hfalsy : truthy ev = false)
    (hpast : r ≤ env.now) :
    usabilityCheck d env.now = .ok false ∧
      ((get_active_sigen_access_token env).refreshCalled = true ∨
        (get_active_sigen_access_token env).authCalled = true) := by
  have hu : usabilityCheck d env.now = .ok false := by
    unfold usabilityCheck
    rw [hr, he]
    simp only [Option.getD_some, orZero, hfalsy, Bool.false_eq_true, if_false]
    simp only [pyAdd, pySub, pyGt]
    have hlt : ¬(env.now < r + 0 - 300) := by omega
    simp only [hlt]
    simp
  refine ⟨hu, ?_⟩
  unfold get_active_sigen_access_token
  rw [hload]
  dsimp only
  rw [hu]
  by_cases hrt : truthy ((getKey d "refresh_token").getD .jnull)
  · simp only [hrt]
    rcases h2 : refresh_sigen_token env ((getKey d "refresh_token").getD .jnull)
      with ⟨res, issued⟩
    cases res with
    | some nti => left; simp [finalize_refreshCalled]
    | none => left; simp [finalize_refreshCalled]
  · simp only [Bool.not_eq_true] at hrt
    right
    simp [hrt, finalize_authCalled]

theorem claim_C7_witness :
    usabilityCheck nullExpiresRecord 1000 = .ok false ∧
      ((get_active_sigen_access_token envNullExpires).refreshCalled = true ∨
        (get_active_sigen_access_token envNullExpires).authCalled = true) :=
  claim_C7_amended_falsy_coerced envNullExpires nullExpiresRecord 0 .jnull
    rfl rfl rfl rfl (by decide)

/-- Claim C8: if `SIGEN_USERNAME` or the pre-transformed secret is
absent from the configuration, `get_sigen_bearer_token` returns
`None` immediately, with zero network calls made. -/
theorem claim_C8_missing_config_failure_no_network (env : Env)
    (h : env.username = none ∨ env.password = none) :
    get_sigen_bearer_token env = (none, false) := by
  rcases h with h | h <;>
    simp [get_sigen_bearer_token, usernameTruthy, passwordTruthy, h]

theorem claim_C8_witness :
    get_sigen_bearer_token envNoUsername = (none, false) :=
  claim_C8_missing_config_failure_no_network envNoUsername (Or.inl rfl)

/-- Claim C9: with a usable stored credential, two back-to-back
invocations of `get_active_sigen_access_token` issue zero network
calls on each invocation (in particular on the second) and return the
same access token both times. -/
theorem claim_C9_idempotent_cached (env : Env) (d : Dict)
    (hload : load_token_from_file env.storedFile = some d)
    (husable : usabilityCheck d env.now = .ok true) :
    (runTwice env).1.netCalls = 0 ∧ (runTwice env).2.netCalls = 0 ∧
      (runTwice env).2.result = (runTwice env).1.result := by
  have h1 : get_active_sigen_access_token env
      = ⟨.ok ((getKey d "access_token").getD .jnull), false, false, 0, [], false⟩ := by
    unfold get_active_sigen_access_token
    rw [hload]
    dsimp only
    rw [husable]
  unfold runTwice
  simp [h1]

theorem claim_C9_witness :
    (runTwice envFresh).1.netCalls = 0 ∧ (runTwice envFresh).2.netCalls = 0 ∧
      (runTwice envFresh).2.result = (runTwice envFresh).1.result :=
  claim_C9_idempotent_cached envFresh freshRecord rfl rfl

/-- Claim C10: when refresh produces a valid token record but the
file write fails (`IOError`, caught and logged inside
`save_token_to_file`), `get_active_sigen_access_token` still returns
that record's access token for the current cycle: the write is
attempted but nothing lands in storage, and the result is not turned
into a failure. -/
theorem claim_C10_save_failure_still_returns_token (env : Env) (d nti : Dict)
    (hload : load_token_from_file env.storedFile = some d)
    (hstale : usabilityCheck d env.now = .ok false)
    (hrt : truthy ((getKey d "refresh_token").getD .jnull) = true)
    (hrefresh : (refresh_sigen_token env ((getKey d "refresh_token").getD .jnull)).1
        = some nti)
    (hsave : env.saveFails = true) :
    (get_active_sigen_access_token env).result
        = .ok ((getKey nti "access_token").getD .jnull) ∧
      (getKey nti "access_token").isSome = true ∧
      (get_active_sigen_access_token env).fileWrites = [] ∧
      (get_active_sigen_access_token env).saveAttempted = true := by
  obtain ⟨av, hav⟩ := refresh_some_hasToken env _ nti hrefresh
  have hne := getKey_isEmpty_false nti "access_token" av hav
  unfold get_active_sigen_access_token
  rw [hload]
  dsimp only
  rw [hstale]
  simp only [hrt]
  rcases h2 : refresh_sigen_token env ((getKey d "refresh_token").getD .jnull)
    with ⟨res, issued⟩
  rw [h2] at hrefresh
  simp only at hrefresh
  subst hrefresh
  simp [finalize, truthy, hne, hav, hsave]

theorem claim_C10_witness :
    (get_active_sigen_access_token envStaleRefreshOkSaveFails).result
        = .ok (.jstr "abc123") ∧
      (getKey refreshedRecord "access_token").isSome = true ∧
      (get_active_sigen_access_token envStaleRefreshOkSaveFails).fileWrites = [] ∧
      (get_active_sigen_access_token envStaleRefreshOkSaveFails).saveAttempted = true :=
  claim_C10_save_failure_still_returns_token envStaleRefreshOkSaveFails staleRecord
    refreshedRecord rfl rfl rfl rfl rfl
